import Mathlib

/-!
Verification of the port/role discovery protocol of `solo-server`
(`solo/commands/robots/lerobot/scan.py` and `.../ports.py`).

The Python functions are shallowly embedded: hardware I/O (serial-port
handlers, SDK ping / register reads) is abstracted into explicit
environment structures whose fields record what the hardware would have
answered, and each Python function becomes a pure Lean function of such an
environment.  Python `dict[int, int]` motor maps become association lists
`List (Nat × Nat)` built in insertion order; Python `set` of ints becomes
`Finset ℕ`; Python floats produced as `raw / 10.0` with `raw` a register
byte become `ℚ` (for one-byte raw values the float comparison against the
literal `8.0` agrees exactly with the rational one, as `80 / 10.0` is
exactly representable and division is correctly rounded).
-/

/-- Motor model sets from `scan.py` lines 52-59.
`SO_LEADER_MODELS = {777}` (STS3215 for SO100/SO101 leader). -/
def SO_LEADER_MODELS : Finset ℕ := {777}

/-- `SO_FOLLOWER_MODELS = {777, 2825}` (STS3215 or STS3250 for follower). -/
def SO_FOLLOWER_MODELS : Finset ℕ := {777, 2825}

/-- `KOCH_LEADER_MODELS = {1190}` (XL330-M077 only). -/
def KOCH_LEADER_MODELS : Finset ℕ := {1190}

/-- `KOCH_FOLLOWER_MODELS = {1060, 1200, 1020, 1120, 1070}`. -/
def KOCH_FOLLOWER_MODELS : Finset ℕ := {1060, 1200, 1020, 1120, 1070}

/-- Embedding of `detect_arm_type_from_models(models, motor_brand)`
(`scan.py` lines 331-348).  Python truthiness `if not models` is the
emptiness test, `models & S` truthiness is nonempty intersection. -/
def detect_arm_type_from_models (models : Finset ℕ) (motor_brand : String) : Option String :=
  if models = ∅ then none
  else if motor_brand = "dynamixel" then
    if models ⊆ KOCH_LEADER_MODELS then some "leader"
    else if models ∩ KOCH_FOLLOWER_MODELS ≠ ∅ then some "follower"
    else none
  else if motor_brand = "feetech" then
    if models ∩ SO_LEADER_MODELS ≠ ∅ ∨ models ∩ SO_FOLLOWER_MODELS ≠ ∅ then some "unknown"
    else none
  else none

/-- Environment for `read_feetech_voltage` (`scan.py` lines 259-297): what
the scservo SDK and the serial port would answer.  `raiseErr` records a
transport exception anywhere inside the `try:` block (caught by the
function, which then returns `None`); `readOk` is
`result == scs.COMM_SUCCESS` of the one-byte register read at address 62;
`readRaw` is the raw register value in 0.1 V units. -/
structure FtVoltEnv where
  sdkInstalled : Bool
  openOk : Bool
  raiseErr : Bool
  readOk : Bool
  readRaw : Nat

/-- Embedding of `read_feetech_voltage` (`scan.py` lines 259-297).  The
guard `if result == scs.COMM_SUCCESS and voltage_raw:` uses Python
truthiness of the integer `voltage_raw`, i.e. also requires `readRaw ≠ 0`;
on success the value returned is `voltage_raw / 10.0` volts. -/
def read_feetech_voltage (env : FtVoltEnv) : Option ℚ :=
  if env.sdkInstalled = false then none
  else if env.raiseErr = true then none
  else if env.openOk = false then none
  else if env.readOk = true ∧ env.readRaw ≠ 0 then some ((env.readRaw : ℚ) / 10)
  else none

/-- Embedding of `detect_so_arm_type_by_voltage` (`scan.py` lines 300-328):
read the voltage from motor ID 1; `None` when the read failed, `"leader"`
when strictly below 8.0 V, `"follower"` otherwise. -/
def detect_so_arm_type_by_voltage (env : FtVoltEnv) : Option String :=
  match read_feetech_voltage env with
  | none => none
  | some voltage => if voltage < 8 then some "leader" else some "follower"

/-- C1: For the dynamixel motor brand, `detect_arm_type_from_models`
returns `"leader"` on every non-empty subset of the leader-only set
`{1190}`, `"follower"` on every set that meets the follower-capable set
`{1060, 1200, 1020, 1120, 1070}` and is not a pure leader subset, and
`none` on the empty set. -/
theorem claim_C1 (models : Finset ℕ) :
    (models ≠ ∅ → models ⊆ KOCH_LEADER_MODELS →
      detect_arm_type_from_models models "dynamixel" = some "leader") ∧
    (models ∩ KOCH_FOLLOWER_MODELS ≠ ∅ → ¬ models ⊆ KOCH_LEADER_MODELS →
      detect_arm_type_from_models models "dynamixel" = some "follower") ∧
    detect_arm_type_from_models ∅ "dynamixel" = none := by
  refine ⟨?_, ?_, ?_⟩
  · intro hne hsub
    simp [detect_arm_type_from_models, hne, hsub]
  · intro hmeet hnsub
    have hne : models ≠ ∅ := by
      intro h
      apply hmeet
      simp [h]
    simp [detect_arm_type_from_models, hne, hnsub, hmeet]
  · simp [detect_arm_type_from_models]

/-- Witness for C1 at concrete model sets: `{1190}` is a non-empty leader
subset and classifies as leader, `{1060}` meets the follower set and
classifies as follower. -/
theorem claim_C1_witness :
    detect_arm_type_from_models {1190} "dynamixel" = some "leader" ∧
    detect_arm_type_from_models {1060} "dynamixel" = some "follower" :=
  ⟨(claim_C1 {1190}).1 (by decide) (by decide),
   (claim_C1 {1060}).2.1 (by decide) (by decide)⟩

/-- C2: voltage-based role classification returns `"leader"` for every
successfully read voltage strictly below 8.0 V, `"follower"` at or above
8.0 V, and `none` (unknown) whenever the voltage read fails. -/
theorem claim_C2 (env : FtVoltEnv) (v : ℚ) :
    (read_feetech_voltage env = some v → v < 8 →
      detect_so_arm_type_by_voltage env = some "leader") ∧
    (read_feetech_voltage env = some v → 8 ≤ v →
      detect_so_arm_type_by_voltage env = some "follower") ∧
    (read_feetech_voltage env = none → detect_so_arm_type_by_voltage env = none) := by
  refine ⟨?_, ?_, ?_⟩
  · intro hr hv
    simp [detect_so_arm_type_by_voltage, hr, hv]
  · intro hr hv
    simp [detect_so_arm_type_by_voltage, hr, not_lt.mpr hv]
  · intro hr
    simp [detect_so_arm_type_by_voltage, hr]

/-- A Feetech voltage environment whose register read succeeds with raw
value 48, i.e. 4.8 V (a 5 V leader arm supply). -/
def ftVolt48 : FtVoltEnv := ⟨true, true, false, true, 48⟩

/-- A Feetech voltage environment whose register read succeeds with raw
value 120, i.e. 12.0 V (a 12 V follower arm supply). -/
def ftVolt120 : FtVoltEnv := ⟨true, true, false, true, 120⟩

/-- A Feetech voltage environment whose register read fails
(`result != COMM_SUCCESS`). -/
def ftVoltFail : FtVoltEnv := ⟨true, true, false, false, 100⟩

/-- Witness for C2: 4.8 V classifies as leader, 12.0 V as follower, and a
failed read as unknown. -/
theorem claim_C2_witness :
    detect_so_arm_type_by_voltage ftVolt48 = some "leader" ∧
    detect_so_arm_type_by_voltage ftVolt120 = some "follower" ∧
    detect_so_arm_type_by_voltage ftVoltFail = none :=
  ⟨(claim_C2 ftVolt48 ((48 : ℚ) / 10)).1 rfl (by norm_num),
   (claim_C2 ftVolt120 ((120 : ℚ) / 10)).2.1 rfl (by norm_num),
   (claim_C2 ftVoltFail 0).2.2 rfl⟩

/-- C10: every voltage value `read_feetech_voltage` returns is strictly
positive — a register read that succeeds with raw value 0 yields `none`
(the Python guard `and voltage_raw` rejects it) — so a reported 0.0 V is
classified as unknown, never as `"leader"`. -/
theorem claim_C10 (env : FtVoltEnv) :
    (∀ v : ℚ, read_feetech_voltage env = some v → 0 < v) ∧
    (env.readOk = true → env.readRaw = 0 →
      read_feetech_voltage env = none ∧ detect_so_arm_type_by_voltage env = none) := by
  constructor
  · intro v hv
    simp only [read_feetech_voltage] at hv
    split_ifs at hv with h1 h2 h3 h4
    obtain rfl : ((env.readRaw : ℚ) / 10) = v := Option.some.inj hv
    have hraw : 0 < (env.readRaw : ℚ) := by
      exact_mod_cast Nat.pos_of_ne_zero h4.2
    positivity
  · intro hok hzero
    have hread : read_feetech_voltage env = none := by
      simp only [read_feetech_voltage]
      split_ifs with h1 h2 h3 h4
      · rfl
      · rfl
      · rfl
      · exact absurd hzero h4.2
      · rfl
    exact ⟨hread, by simp [detect_so_arm_type_by_voltage, hread]⟩

/-- A Feetech voltage environment whose register read succeeds but reports
a raw value of 0 (0.0 V). -/
def ftVoltZero : FtVoltEnv := ⟨true, true, false, true, 0⟩

/-- Witness for C10: a successful read of 4.8 V is positive, and a
successful read reporting raw 0 yields `none` and is classified unknown. -/
theorem claim_C10_witness :
    (0 : ℚ) < (48 : ℚ) / 10 ∧
    read_feetech_voltage ftVoltZero = none ∧
    detect_so_arm_type_by_voltage ftVoltZero = none :=
  ⟨(claim_C10 ftVolt48).1 ((48 : ℚ) / 10) rfl,
   ((claim_C10 ftVoltZero).2 rfl rfl).1,
   ((claim_C10 ftVoltZero).2 rfl rfl).2⟩

/-- Outcome of pinging one Dynamixel motor ID inside `_scan`
(`scan.py` lines 169-172): success with a model number, a failed ping
(`result != COMM_SUCCESS`, the ID is skipped), or a transport exception
(caught by the `except Exception` handler around the loop). -/
inductive PingRes where
  | ok (model : Nat)
  | fail
  | err
deriving DecidableEq

/-- Environment for `scan_dynamixel_port` (`scan.py` lines 145-186):
whether `dynamixel_sdk` imports, whether `openPort()` succeeds, whether
the surrounding `run_with_timeout` abandons the probe, and what pinging
each motor ID would yield. -/
structure DxlScanEnv where
  sdkInstalled : Bool
  openOk : Bool
  timedOut : Bool
  ping : Nat → PingRes

/-- The motor IDs scanned: `range(1, 21)` (`scan.py` line 169). -/
def scanIds : List Nat := List.range' 1 20

/-- The ID loop of `_scan` in `scan_dynamixel_port`: successful pings
append `(motor_id, model_number)` to `found`; failed pings are skipped; a
transport exception aborts the loop and control reaches the
`except Exception` handler, after which the partial `found` is returned. -/
def dxlScanLoop (env : DxlScanEnv) : List Nat → List (Nat × Nat) → List (Nat × Nat)
  | [], found => found
  | i :: rest, found =>
    match env.ping i with
    | PingRes.ok m => dxlScanLoop env rest (found ++ [(i, m)])
    | PingRes.fail => dxlScanLoop env rest found
    | PingRes.err => found

/-- Embedding of `scan_dynamixel_port` (`scan.py` lines 145-186): `{}` when
the probe times out (the `run_with_timeout` default), when the SDK is not
installed, or when the port fails to open; otherwise the ID loop result. -/
def scan_dynamixel_port (env : DxlScanEnv) : List (Nat × Nat) :=
  if env.timedOut = true then []
  else if env.sdkInstalled = false then []
  else if env.openOk = false then []
  else dxlScanLoop env scanIds []

/-- Outcome of probing one Feetech motor ID (`scan.py` lines 224-242):
a successful ping carries the model number the ping returned and the value
of the follow-up `read2ByteTxRx` of the Model_Number register (address 3);
`fail` is a failed ping; `err` a transport exception. -/
inductive FtPing where
  | ok (pingModel : Nat) (regModel : Nat)
  | fail
  | err
deriving DecidableEq

/-- Environment for `scan_feetech_port` (`scan.py` lines 189-256).
`protocol` distinguishes the STS/SMS (0) and SCS (1) variants; the two
branches of the source execute identical per-ID code. -/
structure FtScanEnv where
  protocol : Nat
  sdkInstalled : Bool
  openOk : Bool
  timedOut : Bool
  ping : Nat → FtPing

/-- The ID loop of `_scan` in `scan_feetech_port`: on a successful ping the
register model number `model_nb` is stored when truthy (non-zero),
otherwise the ping's model number (`scan.py` lines 228-232 and 238-242). -/
def ftScanLoop (env : FtScanEnv) : List Nat → List (Nat × Nat) → List (Nat × Nat)
  | [], found => found
  | i :: rest, found =>
    match env.ping i with
    | FtPing.ok pm rm => ftScanLoop env rest (found ++ [(i, if rm ≠ 0 then rm else pm)])
    | FtPing.fail => ftScanLoop env rest found
    | FtPing.err => found

/-- Embedding of `scan_feetech_port` (`scan.py` lines 189-256).  The
`if protocol == 0 ... else ...` branches of the source contain the same
loop body, so both reduce to the single `ftScanLoop`. -/
def scan_feetech_port (env : FtScanEnv) : List (Nat × Nat) :=
  if env.timedOut = true then []
  else if env.sdkInstalled = false then []
  else if env.openOk = false then []
  else ftScanLoop env scanIds []

/-- Whether a Dynamixel ping outcome is a transport exception. -/
def dxlIsErr : PingRes → Bool
  | PingRes.err => true
  | _ => false

/-- Whether a Feetech ping outcome is a transport exception. -/
def ftIsErr : FtPing → Bool
  | FtPing.err => true
  | _ => false

/-- The motors a Dynamixel probe of the given IDs accumulates before the
first transport exception: successful pings among the IDs up to (not
including) the first ID whose ping raises. -/
def dxlFoundUpTo (env : DxlScanEnv) (ids : List Nat) : List (Nat × Nat) :=
  (ids.takeWhile (fun i => ! dxlIsErr (env.ping i))).filterMap (fun i =>
    match env.ping i with
    | PingRes.ok m => some (i, m)
    | _ => none)

/-- The motors accumulated by a full Dynamixel probe (IDs 1-20) before the
first transport exception. -/
def dxlFoundBeforeErr (env : DxlScanEnv) : List (Nat × Nat) :=
  dxlFoundUpTo env scanIds

/-- Feetech analogue of `dxlFoundUpTo`, with the register-read fallback for
the stored model number. -/
def ftFoundUpTo (env : FtScanEnv) (ids : List Nat) : List (Nat × Nat) :=
  (ids.takeWhile (fun i => ! ftIsErr (env.ping i))).filterMap (fun i =>
    match env.ping i with
    | FtPing.ok pm rm => some (i, if rm ≠ 0 then rm else pm)
    | _ => none)

/-- The motors accumulated by a full Feetech probe (IDs 1-20) before the
first transport exception. -/
def ftFoundBeforeErr (env : FtScanEnv) : List (Nat × Nat) :=
  ftFoundUpTo env scanIds

lemma dxlScanLoop_eq (env : DxlScanEnv) :
    ∀ (ids : List Nat) (found : List (Nat × Nat)),
      dxlScanLoop env ids found = found ++ dxlFoundUpTo env ids := by
  intro ids
  induction ids with
  | nil => intro found; simp [dxlScanLoop, dxlFoundUpTo]
  | cons i rest ih =>
    intro found
    cases hp : env.ping i with
    | ok m =>
      simp [dxlScanLoop, hp, ih, dxlFoundUpTo, dxlIsErr]
    | fail =>
      simp [dxlScanLoop, hp, ih, dxlFoundUpTo, dxlIsErr]
    | err =>
      simp [dxlScanLoop, hp, dxlFoundUpTo, dxlIsErr]

lemma ftScanLoop_eq (env : FtScanEnv) :
    ∀ (ids : List Nat) (found : List (Nat × Nat)),
      ftScanLoop env ids found = found ++ ftFoundUpTo env ids := by
  intro ids
  induction ids with
  | nil => intro found; simp [ftScanLoop, ftFoundUpTo]
  | cons i rest ih =>
    intro found
    cases hp : env.ping i with
    | ok pm rm =>
      simp [ftScanLoop, hp, ih, ftFoundUpTo, ftIsErr]
    | fail =>
      simp [ftScanLoop, hp, ih, ftFoundUpTo, ftIsErr]
    | err =>
      simp [ftScanLoop, hp, ftFoundUpTo, ftIsErr]

/-- A Dynamixel environment in which motor 1 answers the ping with model
1190 and the ping of motor 2 raises a transport exception mid-scan. -/
def dxlErrEnv : DxlScanEnv :=
  ⟨true, true, false, fun i => if i = 1 then PingRes.ok 1190 else PingRes.err⟩

/-- Counterexample to C7 as stated: in `dxlErrEnv` a transport exception
occurs during scanning (at motor ID 2), yet `scan_dynamixel_port` returns
the non-empty partial map `{1: 1190}` — the `except Exception` handler
falls through to `return found`, which keeps entries collected before the
exception, so the result is not the empty map the claim requires. -/
theorem claim_C7_counterexample :
    scan_dynamixel_port dxlErrEnv = [(1, 1190)] ∧
    dxlErrEnv.ping 2 = PingRes.err ∧
    ([(1, 1190)] : List (Nat × Nat)) ≠ [] := by
  refine ⟨by decide, by decide, by decide⟩

/-- C7 amended: a probe never raises to its caller (the embeddings are
total functions into motor maps); it returns the empty map whenever the
port fails to open, and when a transport exception occurs during the ID
loop it returns the partial map of motors found before the exception —
which is empty if no motor had yet responded, but not in general.  This
holds for both `scan_dynamixel_port` and `scan_feetech_port`. -/
theorem claim_C7_amended (d : DxlScanEnv) (f : FtScanEnv) :
    (d.timedOut = false → d.sdkInstalled = true → d.openOk = false →
      scan_dynamixel_port d = []) ∧
    (d.timedOut = false → d.sdkInstalled = true → d.openOk = true →
      scan_dynamixel_port d = dxlFoundBeforeErr d) ∧
    (f.timedOut = false → f.sdkInstalled = true → f.openOk = false →
      scan_feetech_port f = []) ∧
    (f.timedOut = false → f.sdkInstalled = true → f.openOk = true →
      scan_feetech_port f = ftFoundBeforeErr f) := by
  refine ⟨?_, ?_, ?_, ?_⟩
  · intro h1 h2 h3
    simp [scan_dynamixel_port, h1, h2, h3]
  · intro h1 h2 h3
    simp [scan_dynamixel_port, h1, h2, h3, dxlScanLoop_eq, dxlFoundBeforeErr]
  · intro h1 h2 h3
    simp [scan_feetech_port, h1, h2, h3]
  · intro h1 h2 h3
    simp [scan_feetech_port, h1, h2, h3, ftScanLoop_eq, ftFoundBeforeErr]

/-- A Dynamixel environment whose port fails to open. -/
def dxlOpenFail : DxlScanEnv := ⟨true, false, false, fun _ => PingRes.fail⟩

/-- A Feetech (protocol 0) environment whose port fails to open. -/
def ftOpenFail : FtScanEnv := ⟨0, true, false, false, fun _ => FtPing.fail⟩

/-- A Feetech (protocol 0) environment in which motor 1 answers with model
777 (STS3215) and the ping of motor 2 raises mid-scan. -/
def ftErrEnv : FtScanEnv :=
  ⟨0, true, true, false, fun i => if i = 1 then FtPing.ok 777 777 else FtPing.err⟩

/-- Witness for the amended C7 at concrete environments: empty map on
open failure for both brands, and the partial-map characterisation on the
mid-scan-exception environments. -/
theorem claim_C7_amended_witness :
    scan_dynamixel_port dxlOpenFail = [] ∧
    scan_dynamixel_port dxlErrEnv = dxlFoundBeforeErr dxlErrEnv ∧
    scan_feetech_port ftOpenFail = [] ∧
    scan_feetech_port ftErrEnv = ftFoundBeforeErr ftErrEnv :=
  ⟨(claim_C7_amended dxlOpenFail ftOpenFail).1 rfl rfl rfl,
   (claim_C7_amended dxlErrEnv ftErrEnv).2.1 rfl rfl rfl,
   (claim_C7_amended dxlOpenFail ftOpenFail).2.2.1 rfl rfl rfl,
   (claim_C7_amended dxlErrEnv ftErrEnv).2.2.2 rfl rfl rfl⟩

/-- Per-port hardware environment for `detect_robot_type_from_port`
(`scan.py` lines 351-391): what the Dynamixel probe, the Feetech
protocol-0 probe and the Feetech protocol-1 probe of this port would each
observe. -/
structure PortScanEnv where
  dxl : DxlScanEnv
  ft0 : FtScanEnv
  ft1 : FtScanEnv

/-- Embedding of `detect_robot_type_from_port` (`scan.py` lines 351-391):
try Dynamixel first, then Feetech protocol 0 (STS/SMS), then Feetech
protocol 1 (SCS); stop at the first probe that yields motors, mapping the
matching family to `("koch", "dynamixel")`, `("so101", "feetech")` and
`("so100", "feetech")` respectively; `(none, none, {})` when all three
probes come back empty. -/
def detect_robot_type_from_port (e : PortScanEnv) :
    Option String × Option String × List (Nat × Nat) :=
  let dynamixel_motors := scan_dynamixel_port e.dxl
  if dynamixel_motors ≠ [] then (some "koch", some "dynamixel", dynamixel_motors)
  else
    let feetech_motors := scan_feetech_port e.ft0
    if feetech_motors ≠ [] then (some "so101", some "feetech", feetech_motors)
    else
      let feetech_motors_p1 := scan_feetech_port e.ft1
      if feetech_motors_p1 ≠ [] then (some "so100", some "feetech", feetech_motors_p1)
      else (none, none, [])

/-- C3: `detect_robot_type_from_port` tries the protocol families in the
fixed order dynamixel, feetech protocol 0, feetech protocol 1, stops at
the first family yielding motors, maps dynamixel to `"koch"`, feetech
protocol 0 to `"so101"`, feetech protocol 1 to `"so100"`, and returns
`(none, none, {})` when no family yields motors. -/
theorem claim_C3 (e : PortScanEnv) :
    (scan_dynamixel_port e.dxl ≠ [] →
      detect_robot_type_from_port e =
        (some "koch", some "dynamixel", scan_dynamixel_port e.dxl)) ∧
    (scan_dynamixel_port e.dxl = [] → scan_feetech_port e.ft0 ≠ [] →
      detect_robot_type_from_port e =
        (some "so101", some "feetech", scan_feetech_port e.ft0)) ∧
    (scan_dynamixel_port e.dxl = [] → scan_feetech_port e.ft0 = [] →
      scan_feetech_port e.ft1 ≠ [] →
      detect_robot_type_from_port e =
        (some "so100", some "feetech", scan_feetech_port e.ft1)) ∧
    (scan_dynamixel_port e.dxl = [] → scan_feetech_port e.ft0 = [] →
      scan_feetech_port e.ft1 = [] →
      detect_robot_type_from_port e = (none, none, [])) := by
  refine ⟨?_, ?_, ?_, ?_⟩ <;> intros <;> simp [detect_robot_type_from_port, *]

/-- A Dynamixel environment answering with six XL330-M077 (model 1190)
motors on IDs 1-6, i.e. a Koch leader arm. -/
def dxlLeaderScan : DxlScanEnv :=
  ⟨true, true, false, fun i => if i ≤ 6 then PingRes.ok 1190 else PingRes.fail⟩

/-- A Dynamixel environment answering with six XL430-W250 (model 1060)
motors on IDs 1-6, i.e. a Koch follower arm. -/
def dxlFollowerScan : DxlScanEnv :=
  ⟨true, true, false, fun i => if i ≤ 6 then PingRes.ok 1060 else PingRes.fail⟩

/-- A Dynamixel environment on which no motor answers. -/
def dxlNone : DxlScanEnv := ⟨true, true, false, fun _ => PingRes.fail⟩

/-- A Feetech protocol-0 environment answering with one STS3215
(model 777) motor on ID 1. -/
def ftSts : FtScanEnv :=
  ⟨0, true, true, false, fun i => if i = 1 then FtPing.ok 777 777 else FtPing.fail⟩

/-- A Feetech environment on which no motor answers (protocol 0). -/
def ftNone : FtScanEnv := ⟨0, true, true, false, fun _ => FtPing.fail⟩

/-- A Feetech environment on which no motor answers (protocol 1). -/
def ftNoneP1 : FtScanEnv := ⟨1, true, true, false, fun _ => FtPing.fail⟩

/-- Witness for C3: a port with Dynamixel motors maps to
`("koch", "dynamixel")`, a port with protocol-0 Feetech motors to
`("so101", "feetech")`, and a silent port to `(none, none, {})`. -/
theorem claim_C3_witness :
    detect_robot_type_from_port ⟨dxlLeaderScan, ftNone, ftNoneP1⟩ =
      (some "koch", some "dynamixel", scan_dynamixel_port dxlLeaderScan) ∧
    detect_robot_type_from_port ⟨dxlNone, ftSts, ftNoneP1⟩ =
      (some "so101", some "feetech", scan_feetech_port ftSts) ∧
    detect_robot_type_from_port ⟨dxlNone, ftNone, ftNoneP1⟩ = (none, none, []) :=
  ⟨(claim_C3 ⟨dxlLeaderScan, ftNone, ftNoneP1⟩).1 (by decide),
   (claim_C3 ⟨dxlNone, ftSts, ftNoneP1⟩).2.1 (by decide) (by decide),
   (claim_C3 ⟨dxlNone, ftNone, ftNoneP1⟩).2.2.2 (by decide) (by decide) (by decide)⟩

/-- Detection-session environment for `auto_detect_ports` (`scan.py`
lines 438-511): the enumerated candidate ports in order, and for each port
what its probes (`scan`) and its Feetech voltage read (`volt`) would
observe. -/
structure ArmDetectEnv where
  ports : List String
  scan : String → PortScanEnv
  volt : String → FtVoltEnv

/-- The role `auto_detect_ports` computes for one port (`scan.py` lines
465-485): `none` when the port has no motors; for the dynamixel brand the
model-set classification of `set(motors.values())`; otherwise the voltage
classification. -/
def classify_port (env : ArmDetectEnv) (p : String) : Option String :=
  let r := detect_robot_type_from_port (env.scan p)
  if r.2.2 = [] then none
  else if r.2.1 = some "dynamixel" then
    detect_arm_type_from_models (r.2.2.map Prod.snd).toFinset "dynamixel"
  else detect_so_arm_type_by_voltage (env.volt p)

/-- One iteration of the port loop of `auto_detect_ports` (`scan.py` lines
464-491) on the state `(leader_port, follower_port, detected_robot_type)`:
ports without motors are skipped; the detected robot type is filled once;
the computed arm type fills the leader slot only when it is still `None`,
else the follower slot only when it is still `None`, else it is ignored. -/
def armStep (env : ArmDetectEnv) (s : Option String × Option String × Option String)
    (p : String) : Option String × Option String × Option String :=
  let r := detect_robot_type_from_port (env.scan p)
  if r.2.2 = [] then s
  else
    let dtype := if s.2.2 = none ∧ r.1.isSome = true then r.1 else s.2.2
    let armType :=
      if r.2.1 = some "dynamixel" then
        detect_arm_type_from_models (r.2.2.map Prod.snd).toFinset "dynamixel"
      else detect_so_arm_type_by_voltage (env.volt p)
    if armType = some "leader" ∧ s.1 = none then (some p, s.2.1, dtype)
    else if armType = some "follower" ∧ s.2.1 = none then (s.1, some p, dtype)
    else (s.1, s.2.1, dtype)

/-- Embedding of `auto_detect_ports` (`scan.py` lines 438-511): with no
candidate ports the function returns `(None, None, None)` (even discarding
the caller's robot-type hint); otherwise it folds the port loop over the
enumerated ports starting from empty leader/follower slots and the hint. -/
def auto_detect_ports (env : ArmDetectEnv) (robot_type : Option String) :
    Option String × Option String × Option String :=
  if env.ports = [] then (none, none, none)
  else env.ports.foldl (armStep env) (none, none, robot_type)

/-- The first port of the list whose classification is the given role —
the claim's reading of "first port (in enumeration order) classified X". -/
def firstRole (env : ArmDetectEnv) (role : String) : List String → Option String
  | [] => none
  | p :: ps => if classify_port env p = some role then some p else firstRole env role ps

/-- `a` if present, else `b` — how an already-filled slot shadows later
candidates. -/
def optOr : Option String → Option String → Option String
  | some x, _ => some x
  | none, b => b

lemma optOr_none (a : Option String) : optOr a none = a := by
  cases a <;> rfl

lemma armStep_fst (env : ArmDetectEnv) (s : Option String × Option String × Option String)
    (p : String) :
    (armStep env s p).1 =
      if classify_port env p = some "leader" ∧ s.1 = none then some p else s.1 := by
  unfold armStep classify_port
  by_cases hm : (detect_robot_type_from_port (env.scan p)).2.2 = []
  · simp [hm]
  · simp only [hm, if_false, ite_false]
    split_ifs <;> simp_all

lemma armStep_snd (env : ArmDetectEnv) (s : Option String × Option String × Option String)
    (p : String) :
    (armStep env s p).2.1 =
      if classify_port env p = some "follower" ∧ s.2.1 = none then some p else s.2.1 := by
  unfold armStep classify_port
  by_cases hm : (detect_robot_type_from_port (env.scan p)).2.2 = []
  · simp [hm]
  · simp only [hm, if_false, ite_false]
    split_ifs <;> simp_all

lemma armFold_slots (env : ArmDetectEnv) :
    ∀ (ports : List String) (s : Option String × Option String × Option String),
      (ports.foldl (armStep env) s).1 = optOr s.1 (firstRole env "leader" ports) ∧
      (ports.foldl (armStep env) s).2.1 = optOr s.2.1 (firstRole env "follower" ports) := by
  intro ports
  induction ports with
  | nil =>
    intro s
    constructor <;> simp [firstRole, optOr_none]
  | cons p ps ih =>
    intro s
    rw [List.foldl_cons]
    obtain ⟨ih1, ih2⟩ := ih (armStep env s p)
    constructor
    · rw [ih1, armStep_fst]
      by_cases hL : classify_port env p = some "leader"
      · cases hs : s.1 with
        | none => simp [firstRole, hL, hs, optOr]
        | some x => simp [firstRole, hL, hs, optOr]
      · simp [firstRole, hL, optOr]
    · rw [ih2, armStep_snd]
      by_cases hF : classify_port env p = some "follower"
      · cases hs : s.2.1 with
        | none => simp [firstRole, hF, hs, optOr]
        | some x => simp [firstRole, hF, hs, optOr]
      · simp [firstRole, hF, optOr]

lemma firstRole_classify (env : ArmDetectEnv) (role : String) :
    ∀ (ports : List String) (p : String),
      firstRole env role ports = some p → classify_port env p = some role := by
  intro ports
  induction ports with
  | nil =>
    intro p h
    simp [firstRole] at h
  | cons q qs ih =>
    intro p h
    by_cases hq : classify_port env q = some role
    · have hqp : q = p := by simpa [firstRole, hq] using h
      rw [← hqp]
      exact hq
    · exact ih p (by simpa [firstRole, hq] using h)

/-- C4: first-found-wins in `auto_detect_ports` — for every enumeration
order, the leader slot is the first port (in enumeration order) whose
classification is `"leader"`, the follower slot is the first port
classified `"follower"` (so a later port classifying to a filled role is
ignored and never overwrites the earlier assignment), and no port is
assigned both roles. -/
theorem claim_C4 (env : ArmDetectEnv) (robot_type : Option String) :
    (auto_detect_ports env robot_type).1 = firstRole env "leader" env.ports ∧
    (auto_detect_ports env robot_type).2.1 = firstRole env "follower" env.ports ∧
    ∀ p : String, (auto_detect_ports env robot_type).1 = some p →
      (auto_detect_ports env robot_type).2.1 ≠ some p := by
  have key : (auto_detect_ports env robot_type).1 = firstRole env "leader" env.ports ∧
      (auto_detect_ports env robot_type).2.1 = firstRole env "follower" env.ports := by
    unfold auto_detect_ports
    by_cases hp : env.ports = []
    · simp [hp, firstRole]
    · obtain ⟨h1, h2⟩ := armFold_slots env env.ports (none, none, robot_type)
      constructor
      · simpa [hp, optOr] using h1
      · simpa [hp, optOr] using h2
  refine ⟨key.1, key.2, ?_⟩
  intro p hp1 hp2
  have hcl : classify_port env p = some "leader" :=
    firstRole_classify env "leader" env.ports p (key.1.symm.trans hp1)
  have hcf : classify_port env p = some "follower" :=
    firstRole_classify env "follower" env.ports p (key.2.symm.trans hp2)
  rw [hcl] at hcf
  exact absurd (Option.some.inj hcf) (by decide)

/-- A detection session with three candidate ports: two Koch leader arms
(only the first may win the leader slot) and one Koch follower arm. -/
def env4 : ArmDetectEnv where
  ports := ["/dev/ttyACM0", "/dev/ttyACM1", "/dev/ttyACM2"]
  scan := fun p =>
    if p = "/dev/ttyACM2" then ⟨dxlFollowerScan, ftNone, ftNoneP1⟩
    else ⟨dxlLeaderScan, ftNone, ftNoneP1⟩
  volt := fun _ => ftVoltFail

/-- Witness for C4: in `env4` both `/dev/ttyACM0` and `/dev/ttyACM1`
classify as leader; the assigned leader is the first of them, and that
port does not also receive the follower role. -/
theorem claim_C4_witness :
    (auto_detect_ports env4 none).1 = some "/dev/ttyACM0" ∧
    (auto_detect_ports env4 none).2.1 ≠ some "/dev/ttyACM0" :=
  ⟨(claim_C4 env4 none).1.trans (by decide),
   (claim_C4 env4 none).2.2 "/dev/ttyACM0" ((claim_C4 env4 none).1.trans (by decide))⟩

/-- Detection-session environment for `auto_detect_robot_type` (`scan.py`
lines 394-435): the enumerated ports and each port's probe environment. -/
structure SessionEnv where
  ports : List String
  scan : String → PortScanEnv

/-- One iteration of the port loop of `auto_detect_robot_type` (`scan.py`
lines 414-419) on the state `(port_info, detected_types)`: ports with
motors append `(port, motor_brand, motors)` to `port_info` and add the
port's robot type (when present) to the `detected_types` set. -/
def sessionStep (env : SessionEnv)
    (acc : List (String × Option String × List (Nat × Nat)) × Finset String)
    (p : String) : List (String × Option String × List (Nat × Nat)) × Finset String :=
  let r := detect_robot_type_from_port (env.scan p)
  if r.2.2 = [] then acc
  else (acc.1 ++ [(p, r.2.1, r.2.2)],
    match r.1 with
    | some t => insert t acc.2
    | none => acc.2)

/-- The `(port_info, detected_types)` pair accumulated by one session of
`auto_detect_robot_type` over all enumerated ports. -/
def detectionResults (env : SessionEnv) :
    List (String × Option String × List (Nat × Nat)) × Finset String :=
  env.ports.foldl (sessionStep env) ([], ∅)

/-- Embedding of `auto_detect_robot_type` (`scan.py` lines 394-435).
Python's `detected_types.pop()` removes an *unspecified* element of the
set, so the selection is a parameter `pick`; the source calls it both when
exactly one type was detected (where any element-returning selection
yields the unique type) and when several were (lines 427-431, after
printing a warning — with no operator interaction of any kind). -/
def auto_detect_robot_type (env : SessionEnv)
    (pick : Finset String → Option String) :
    Option String × List (String × Option String × List (Nat × Nat)) :=
  if env.ports = [] then (none, [])
  else
    let res := detectionResults env
    if res.2.card = 1 then (pick res.2, res.1)
    else if 1 < res.2.card then (pick res.2, res.1)
    else (none, res.1)

/-- A session whose first port carries Dynamixel motors (robot type
`"koch"`) and whose second port carries protocol-0 Feetech motors (robot
type `"so101"`): two distinct robot types in one session. -/
def env9 : SessionEnv where
  ports := ["/dev/ttyACM0", "/dev/ttyACM1"]
  scan := fun p =>
    if p = "/dev/ttyACM0" then ⟨dxlLeaderScan, ftNone, ftNoneP1⟩
    else ⟨dxlNone, ftSts, ftNoneP1⟩

/-- A selection function that returns the element `"koch"` whenever the
set contains it — one possible behaviour of Python's `set.pop()`. -/
def pickKoch : Finset String → Option String :=
  fun s => if "koch" ∈ s then some "koch" else none

/-- A selection function that returns the element `"so101"` whenever the
set contains it — another possible behaviour of Python's `set.pop()`. -/
def pickSo101 : Finset String → Option String :=
  fun s => if "so101" ∈ s then some "so101" else none

/-- Counterexample to C9 as stated: in `env9` the session detects two
distinct robot types, yet `auto_detect_robot_type` — which has no operator
input at all — still returns a definite robot type, namely whichever
element the unspecified `set.pop()` selection happens to produce (both
`"koch"` and `"so101"` are possible).  The ambiguity is resolved silently
by an arbitrary tie-break after a printed warning; no explicit choice is
ever surfaced to the operator. -/
theorem claim_C9_counterexample :
    1 < (detectionResults env9).2.card ∧
    (auto_detect_robot_type env9 pickKoch).1 = some "koch" ∧
    (auto_detect_robot_type env9 pickSo101).1 = some "so101" :=
  ⟨by decide, by decide, by decide⟩

/-- C9 amended: when one session of `auto_detect_robot_type` detects more
than one distinct robot type, the function prints a warning and silently
returns the result of the unspecified `set.pop()` selection applied to the
detected-type set; the operator is not offered an explicit choice. -/
theorem claim_C9_amended (env : SessionEnv) (pick : Finset String → Option String) :
    1 < (detectionResults env).2.card →
    (auto_detect_robot_type env pick).1 = pick (detectionResults env).2 := by
  intro hcard
  have hne : env.ports ≠ [] := by
    intro h
    rw [show detectionResults env = ([], ∅) from by simp [detectionResults, h]] at hcard
    simp at hcard
  unfold auto_detect_robot_type
  rw [if_neg hne]
  have h1 : ¬(detectionResults env).2.card = 1 := by omega
  simp [h1, hcard]

/-- Witness for the amended C9: in `env9` two types are detected and the
returned type is exactly what the selection function picks from the
detected set. -/
theorem claim_C9_amended_witness :
    1 < (detectionResults env9).2.card ∧
    (auto_detect_robot_type env9 pickKoch).1 = pickKoch (detectionResults env9).2 :=
  ⟨by decide, claim_C9_amended env9 pickKoch (by decide)⟩

/-- Embedding of the connect-flow set difference of `detect_arm_port`
(`ports.py` lines 101-107): `new_ports = list(set(ports_after) -
set(ports_before))`, and the port is returned exactly when that list has
length one.  `list(set(...))` enumerates each distinct element once in an
unspecified order, embedded here as `filter` + `dedup`; in the
one-element case the claim concerns, the enumeration order is
irrelevant. -/
def detectNewPort (ports_before ports_after : List String) : Option String :=
  match (ports_after.filter (fun p => decide (p ∉ ports_before))).dedup with
  | [p] => some p
  | _ => none

/-- Embedding of the disconnect-flow set difference of `detect_arm_port`
(`ports.py` lines 132-138): `missing_ports = list(set(ports_before) -
set(ports_unplugged))`, returned when it has exactly one element. -/
def detectMissingPort (ports_before ports_unplugged : List String) : Option String :=
  match (ports_before.filter (fun p => decide (p ∉ ports_unplugged))).dedup with
  | [p] => some p
  | _ => none

lemma diffList_eq_singleton (a b : List String) (c : String)
    (h : a.toFinset \ b.toFinset = {c}) :
    (a.filter (fun p => decide (p ∉ b))).dedup = [c] := by
  have hnd : ((a.filter (fun p => decide (p ∉ b))).dedup).Nodup := List.nodup_dedup _
  have hfin : ((a.filter (fun p => decide (p ∉ b))).dedup).toFinset = a.toFinset \ b.toFinset := by
    ext x
    simp [List.mem_dedup, List.mem_filter, Finset.mem_sdiff]
  have hlen : ((a.filter (fun p => decide (p ∉ b))).dedup).length = 1 := by
    have hc := List.toFinset_card_of_nodup hnd
    rw [hfin, h] at hc
    simpa using hc.symm
  obtain ⟨x, hx⟩ := List.length_eq_one.mp hlen
  have hxc : x = c := by
    have hxmem : x ∈ ((a.filter (fun p => decide (p ∉ b))).dedup).toFinset := by
      rw [hx]
      simp
    rw [hfin, h] at hxmem
    simpa using hxmem
  rw [hx, hxc]

/-- C8: manual-fallback set-difference correctness in `detect_arm_port` —
whenever the after-minus-before difference of enumerated ports is exactly
one port, that port is returned by the connect flow, and whenever the
before-minus-unplugged difference is exactly one port, that port is
returned by the disconnect flow. -/
theorem claim_C8 (ports_before ports_after ports_unplugged : List String) (c : String) :
    (ports_after.toFinset \ ports_before.toFinset = {c} →
      detectNewPort ports_before ports_after = some c) ∧
    (ports_before.toFinset \ ports_unplugged.toFinset = {c} →
      detectMissingPort ports_before ports_unplugged = some c) := by
  constructor
  · intro h
    unfold detectNewPort
    rw [diffList_eq_singleton ports_after ports_before c h]
  · intro h
    unfold detectMissingPort
    rw [diffList_eq_singleton ports_before ports_unplugged c h]

/-- Witness for C8 at the spec's own example: before `{A, B}`, after
`{A, B, C}` detects the new port `C`; before `{A, B, C}`, unplugged
`{A, B}` detects the missing port `C`. -/
theorem claim_C8_witness :
    detectNewPort ["A", "B"] ["A", "B", "C"] = some "C" ∧
    detectMissingPort ["A", "B", "C"] ["A", "B"] = some "C" :=
  ⟨(claim_C8 ["A", "B"] ["A", "B", "C"] [] "C").1 (by decide),
   (claim_C8 ["A", "B", "C"] [] ["A", "B"] "C").2 (by decide)⟩

/-- `leadsWith needle l` is true when `needle` is an initial segment of
`l` — the character-level matching step of substring search. -/
def leadsWith : List Char → List Char → Bool
  | [], _ => true
  | _ :: _, [] => false
  | a :: as, b :: bs => (a == b) && leadsWith as bs

/-- `hasSubSeq needle hay` is true when `needle` occurs contiguously in
`hay` — the embedding of Python's `needle in haystack` substring test. -/
def hasSubSeq : List Char → List Char → Bool
  | needle, [] => needle.isEmpty
  | needle, c :: rest => leadsWith needle (c :: rest) || hasSubSeq needle rest

/-- Python's `sub in s` substring containment on strings. -/
def strContains (needle hay : String) : Bool :=
  hasSubSeq needle.toList hay.toList

/-- Lexicographic (code-point) `≤` on character lists — Python's string
comparison order used by `sorted` on a list of port-name strings. -/
def lexLe : List Char → List Char → Bool
  | [], _ => true
  | _ :: _, [] => false
  | a :: as, b :: bs => if a < b then true else if a == b then lexLe as bs else false

/-- Insert a string into an already-sorted list of strings. -/
def insertSorted (s : String) : List String → List String
  | [] => [s]
  | t :: ts => if lexLe s.toList t.toList then s :: t :: ts else t :: insertSorted s ts

/-- Python's `sorted` on a list of strings (ascending lexicographic). -/
def sortStrings : List String → List String
  | [] => []
  | s :: ss => insertSorted s (sortStrings ss)

/-- One entry of `serial.tools.list_ports.comports()`: the device name,
the human-readable description, and the USB vendor ID when the port
advertises a USB VID/PID. -/
structure ComPort where
  device : String
  description : String
  vid : Option Nat

/-- Embedding of the Windows branch of `get_serial_ports` (`scan.py`
lines 66-84 and the final `return sorted(ports)` at line 142): skip ports
whose description contains `"Bluetooth"`, partition the rest into
`usb_ports` (those with a VID) followed by `other_ports`, concatenate
USB-first — and then sort the combined list, as the function's single
return statement does for every platform branch. -/
def get_serial_ports_windows (comports : List ComPort) : List String :=
  let pairs := comports.foldl
    (fun (acc : List String × List String) port =>
      if strContains "Bluetooth" port.description then acc
      else if port.vid.isSome then (acc.1 ++ [port.device], acc.2)
      else (acc.1, acc.2 ++ [port.device]))
    ([], [])
  sortStrings (pairs.1 ++ pairs.2)

/-- C6 (code bug): on the port list `[COM7 (Bluetooth, no VID),
COM9 (USB, VID 1027), COM1 (no VID)]` the Windows enumeration correctly
excludes the Bluetooth port COM7, and its loop builds the USB-first list
`["COM9", "COM1"]` — but the function's final `return sorted(ports)`
(`scan.py` line 142) re-sorts alphabetically and returns
`["COM1", "COM9"]`, placing the non-USB COM1 *before* the USB COM9.  This
contradicts the claim (and the source's own comments, lines 78 and 83:
"Prioritize USB ports", "Put USB ports first") that every port advertising
a USB VID/PID comes before every port that does not. -/
theorem claim_C6_code_bug :
    get_serial_ports_windows
      [⟨"COM7", "Standard Serial over Bluetooth link", none⟩,
       ⟨"COM9", "USB Serial Device", some 1027⟩,
       ⟨"COM1", "Communications Port", none⟩] = ["COM1", "COM9"] := by
  decide
